import Mathlib

/-!
Shallow embedding of the health-monitor core (state tracking, alert
deduplication, resilience primitives, scheduler configuration) together
with theorems settling the specification claims.

Conventions: Python `datetime` / `time.time()` values are modelled as
rationals (only ordering and subtraction are used by the code under
study); Python dicts keyed by strings are modelled as association lists
with a lookup that returns the binding of the most recent insertion;
fallible calls are modelled with `Except`.
-/

namespace HealthMonitor

/-- Association-list lookup, mirroring Python `dict.get`. -/
def dget {β : Type} : List (String × β) → String → Option β
  | [], _ => none
  | (k', v) :: rest, k => if k' = k then some v else dget rest k

/-- Association-list update, mirroring Python `dict[k] = v` (keys unique). -/
def dset {β : Type} (l : List (String × β)) (k : String) (v : β) :
    List (String × β) :=
  (k, v) :: l.filter (fun p => p.1 ≠ k)

/-- models/health_check.py `HealthCheckResult`. -/
structure HealthCheckResult where
  service_name : String
  service_type : String
  is_healthy : Bool
  response_time : ℚ
  error_message : Option String
  timestamp : ℚ
deriving Repr, DecidableEq

/-- models/health_check.py `StateChange`. -/
structure StateChange where
  service_name : String
  service_type : String
  old_state : Bool
  new_state : Bool
  timestamp : ℚ
  error_message : Option String
  response_time : Option ℚ
deriving Repr, DecidableEq

/-- services/state_manager.py `StateManager` (in-memory fields; the
logger and the persistence-file path carry no model state). -/
structure StateManager where
  current_states : List (String × Bool)
  state_history : List HealthCheckResult
  state_changes : List StateChange
deriving Repr, DecidableEq

namespace StateManager

/-- services/state_manager.py `StateManager.update_state`: returns the
optional `StateChange` together with the mutated manager. -/
def update_state (m : StateManager) (result : HealthCheckResult) :
    Option StateChange × StateManager :=
  let service_name := result.service_name
  let new_state := result.is_healthy
  let old_state := dget m.current_states service_name
  let history := m.state_history ++ [result]
  match old_state with
  | none =>
      (none,
       { m with
          current_states := dset m.current_states service_name new_state,
          state_history := history })
  | some old =>
      if old ≠ new_state then
        let change : StateChange :=
          { service_name := service_name
            service_type := result.service_type
            old_state := old
            new_state := new_state
            timestamp := result.timestamp
            error_message := result.error_message
            response_time := some result.response_time }
        (some change,
         { m with
            current_states := dset m.current_states service_name new_state,
            state_history := history,
            state_changes := m.state_changes ++ [change] })
      else
        (none,
         { m with
            current_states := dset m.current_states service_name new_state,
            state_history := history })

/-- services/state_manager.py `StateManager.get_all_states`. -/
def get_all_states (m : StateManager) : List (String × Bool) :=
  m.current_states

/-- Content of the JSON state file written by
services/state_manager.py `StateManager._save_state`. -/
structure SavedState where
  current_states : List (String × Bool)
  state_changes : List StateChange
deriving Repr, DecidableEq

/-- services/state_manager.py `StateManager._save_state`: the data
serialised to the persistence file (only the last 100 state changes). -/
def save_state (m : StateManager) : SavedState :=
  { current_states := m.current_states
    state_changes := m.state_changes.drop (m.state_changes.length - 100) }

/-- A fresh `StateManager` constructed with a persistence file, i.e.
`__init__` followed by services/state_manager.py `StateManager._load_state`. -/
def load_state (s : SavedState) : StateManager :=
  { current_states := s.current_states
    state_history := []
    state_changes := s.state_changes }

/-- Feeding a sequence of check results through `update_state`. -/
def run_updates (m : StateManager) (results : List HealthCheckResult) :
    StateManager :=
  results.foldl (fun acc r => (update_state acc r).2) m

end StateManager

/-- models/health_check.py `AlertMessage`. -/
structure AlertMessage where
  service_name : String
  service_type : String
  status : String
  timestamp : ℚ
  error_message : Option String
  response_time : Option ℚ
deriving Repr, DecidableEq

/-- alerts/manager.py `AlertManager` (deduplication state; alerters are
tracked by name, their delivery behaviour is supplied per call). -/
structure AlertManager where
  alerters : List String
  alert_history : List (String × ℚ)
  duplicate_threshold : ℚ
deriving Repr, DecidableEq

namespace AlertManager

/-- alerts/manager.py `AlertManager._create_alert_message`. -/
def create_alert_message (sc : StateChange) : AlertMessage :=
  { service_name := sc.service_name
    service_type := sc.service_type
    status := if sc.new_state then "UP" else "DOWN"
    timestamp := sc.timestamp
    error_message := sc.error_message
    response_time := sc.response_time }

/-- The dedup key `f"{message.service_name}:{message.status}"` used by
alerts/manager.py `_should_deduplicate` and `_record_alert`. -/
def alert_key (msg : AlertMessage) : String :=
  msg.service_name ++ ":" ++ msg.status

/-- alerts/manager.py `AlertManager._should_deduplicate`. -/
def should_deduplicate (m : AlertManager) (msg : AlertMessage) : Bool :=
  match dget m.alert_history (alert_key msg) with
  | some last_alert_time =>
      decide (msg.timestamp - last_alert_time < m.duplicate_threshold)
  | none => false

/-- alerts/manager.py `AlertManager._cleanup_alert_history` (`now` is
`datetime.now()` at the call). -/
def cleanup_alert_history (m : AlertManager) (now : ℚ) : AlertManager :=
  { m with
      alert_history :=
        m.alert_history.filter
          (fun p => !decide (m.duplicate_threshold * 2 < now - p.2)) }

/-- alerts/manager.py `AlertManager._record_alert`. -/
def record_alert (m : AlertManager) (msg : AlertMessage) (now : ℚ) :
    AlertManager :=
  cleanup_alert_history
    { m with alert_history := dset m.alert_history (alert_key msg) msg.timestamp }
    now

/-- alerts/manager.py `AlertManager.send_alert`: returns the emitted
notification (if any), the per-alerter delivery outcomes, and the
mutated manager.  `deliver` gives each named alerter's delivery result
(`_send_to_alerter` converts exceptions into a failed outcome). -/
def send_alert (m : AlertManager) (now : ℚ) (sc : StateChange)
    (deliver : String → Bool) :
    Option AlertMessage × List (String × Bool) × AlertManager :=
  if m.alerters = [] then (none, [], m)
  else
    let msg := create_alert_message sc
    if should_deduplicate m msg then (none, [], m)
    else
      (some msg, m.alerters.map (fun a => (a, deliver a)),
       record_alert m msg now)

end AlertManager

/-- utils/exceptions.py `ErrorCode` (the checker-error range used by the
resilience layer). -/
inductive ErrorCode where
  | UNKNOWN_ERROR
  | CONNECTION_ERROR
  | TIMEOUT_ERROR
  | SERVICE_UNAVAILABLE
  | INVALID_RESPONSE
deriving Repr, DecidableEq

/-- utils/resilience.py `CircuitBreakerState`. -/
inductive CircuitBreakerState where
  | CLOSED
  | OPEN
  | HALF_OPEN
deriving Repr, DecidableEq

/-- utils/resilience.py `CircuitBreakerConfig`. -/
structure CircuitBreakerConfig where
  failure_threshold : ℕ
  recovery_timeout : ℚ
  half_open_max_calls : ℕ
deriving Repr, DecidableEq

/-- utils/resilience.py `CircuitBreaker` (dataclass fields). -/
structure CircuitBreaker where
  name : String
  config : CircuitBreakerConfig
  state : CircuitBreakerState
  failure_count : ℕ
  last_failure_time : ℚ
  success_count : ℕ
deriving Repr, DecidableEq

namespace CircuitBreaker

/-- utils/resilience.py `CircuitBreaker.should_allow_request` (`now` is
`time.time()` at the call): returns the decision and the possibly
mutated breaker (the OPEN → HALF_OPEN lazy transition). -/
def should_allow_request (cb : CircuitBreaker) (now : ℚ) :
    Bool × CircuitBreaker :=
  match cb.state with
  | .CLOSED => (true, cb)
  | .OPEN =>
      if cb.config.recovery_timeout ≤ now - cb.last_failure_time then
        (true, { cb with state := .HALF_OPEN, success_count := 0 })
      else
        (false, cb)
  | .HALF_OPEN => (decide (cb.success_count < cb.config.half_open_max_calls), cb)

/-- utils/resilience.py `CircuitBreaker.record_success`. -/
def record_success (cb : CircuitBreaker) : CircuitBreaker :=
  match cb.state with
  | .HALF_OPEN =>
      let s := cb.success_count + 1
      if cb.config.half_open_max_calls ≤ s then
        { cb with state := .CLOSED, failure_count := 0, success_count := s }
      else
        { cb with success_count := s }
  | .CLOSED => { cb with failure_count := 0 }
  | .OPEN => cb

/-- utils/resilience.py `CircuitBreaker.record_failure` (`now` is
`time.time()` at the call). -/
def record_failure (cb : CircuitBreaker) (now : ℚ) : CircuitBreaker :=
  let c := cb.failure_count + 1
  let cb' := { cb with failure_count := c, last_failure_time := now }
  match cb.state with
  | .CLOSED =>
      if cb.config.failure_threshold ≤ c then
        { cb' with state := .OPEN }
      else
        cb'
  | .HALF_OPEN => { cb' with state := .OPEN }
  | .OPEN => cb'

/-- One call to the breaker's public interface, for stating the
transition invariant over arbitrary interleavings. -/
inductive CBEvent where
  | allow_request (now : ℚ)
  | record_succ
  | record_fail (now : ℚ)
deriving Repr, DecidableEq

/-- The breaker state reached after one `CBEvent`. -/
def cb_step (cb : CircuitBreaker) : CBEvent → CircuitBreaker
  | .allow_request now => (should_allow_request cb now).2
  | .record_succ => record_success cb
  | .record_fail now => record_failure cb now

/-- Outcome of one call through the utils/resilience.py
`with_circuit_breaker` wrapper: the wrapped value, a fail-fast
`CheckerError` carrying an `ErrorCode` and a recoverable flag, or the
wrapped operation's own exception re-raised. -/
inductive CBCallOutcome (α : Type) where
  | value (a : α)
  | checker_error (code : ErrorCode) (recoverable : Bool)
  | reraised
deriving Repr, DecidableEq

/-- Body of the utils/resilience.py `with_circuit_breaker` wrapper for
one invocation at time `now`: `op_result` is what the wrapped operation
would do if invoked.  Returns the outcome, the mutated breaker, and
whether the wrapped operation was invoked. -/
def circuit_breaker_call {α : Type} (cb : CircuitBreaker) (now : ℚ)
    (op_result : Except Unit α) : CBCallOutcome α × CircuitBreaker × Bool :=
  let ar := should_allow_request cb now
  if ar.1 then
    match op_result with
    | .ok a => (.value a, record_success ar.2, true)
    | .error _ => (.reraised, record_failure ar.2 now, true)
  else
    (.checker_error .SERVICE_UNAVAILABLE false, ar.2, false)

end CircuitBreaker

/-- utils/resilience.py `ServiceState`. -/
inductive ServiceState where
  | HEALTHY
  | DEGRADED
  | UNHEALTHY
  | UNKNOWN
deriving Repr, DecidableEq

/-- utils/resilience.py `FallbackConfig`; the fallback function is
modelled by the outcome of invoking it (`none` when no function is
configured, `some (.error ())` when calling it raises). -/
structure FallbackConfig (α : Type) where
  enabled : Bool
  fallback_value : α
  fallback_function : Option (Except Unit α)
  max_failures : ℕ
  failure_window : ℚ
deriving Repr

/-- utils/resilience.py `ResilienceManager` (the fallback-related
fields used by `with_fallback`). -/
structure ResilienceManager (α : Type) where
  fallback_configs : List (String × FallbackConfig α)
  service_states : List (String × ServiceState)
  failure_counts : List (String × List ℚ)
deriving Repr

namespace ResilienceManager

/-- utils/resilience.py `ResilienceManager.get_service_state`. -/
def get_service_state {α : Type} (m : ResilienceManager α) (name : String) :
    ServiceState :=
  (dget m.service_states name).getD .UNKNOWN

/-- utils/resilience.py `ResilienceManager.update_service_state`. -/
def update_service_state {α : Type} (m : ResilienceManager α) (name : String)
    (st : ServiceState) : ResilienceManager α :=
  { m with service_states := dset m.service_states name st }

/-- utils/resilience.py `ResilienceManager.record_failure` (`now` is
`time.time()` at the call). -/
def record_failure {α : Type} (m : ResilienceManager α) (name : String)
    (now : ℚ) : ResilienceManager α :=
  let lst := (dget m.failure_counts name).getD [] ++ [now]
  match dget m.fallback_configs name with
  | none => { m with failure_counts := dset m.failure_counts name lst }
  | some fc =>
      let pruned := lst.filter (fun t => decide (now - fc.failure_window ≤ t))
      let m1 := { m with failure_counts := dset m.failure_counts name pruned }
      if fc.max_failures ≤ pruned.length then
        update_service_state m1 name .DEGRADED
      else
        m1

/-- utils/resilience.py `ResilienceManager.should_use_fallback`. -/
def should_use_fallback {α : Type} (m : ResilienceManager α) (name : String) :
    Bool :=
  match dget m.fallback_configs name with
  | none => false
  | some fc =>
      fc.enabled &&
        (get_service_state m name = .DEGRADED ∨
         get_service_state m name = .UNHEALTHY : Prop)

/-- utils/resilience.py `ResilienceManager.get_fallback_value`. -/
def get_fallback_value {α : Type} (m : ResilienceManager α) (name : String) :
    Option α :=
  match dget m.fallback_configs name with
  | none => none
  | some fc =>
      match fc.fallback_function with
      | some (.ok v) => some v
      | some (.error _) => some fc.fallback_value
      | none => some fc.fallback_value

/-- Body of the utils/resilience.py `with_fallback` wrapper for one
invocation at time `now`: `func_result` is what the wrapped operation
would do if invoked.  Returns `.ok` with the produced value (the
operation's own value or the fallback value) or `.error` when the
operation's exception is re-raised, together with the mutated manager. -/
def with_fallback_call {α : Type} (m : ResilienceManager α) (name : String)
    (now : ℚ) (func_result : Except Unit α) :
    Except Unit (Option α) × ResilienceManager α :=
  if should_use_fallback m name then
    (.ok (get_fallback_value m name), m)
  else
    match func_result with
    | .ok v => (.ok (some v), update_service_state m name .HEALTHY)
    | .error _ =>
        let m1 := record_failure m name now
        if should_use_fallback m1 name then
          (.ok (get_fallback_value m1 name), m1)
        else
          (.error (), m1)

end ResilienceManager

/-- utils/error_handler.py `RetryStrategy`. -/
inductive RetryStrategy where
  | FIXED_DELAY
  | EXPONENTIAL_BACKOFF
  | LINEAR_BACKOFF
deriving Repr, DecidableEq

/-- utils/error_handler.py `RetryConfig` (the fields read by
`calculate_delay`). -/
structure RetryConfig where
  base_delay : ℚ
  max_delay : ℚ
  strategy : RetryStrategy
  backoff_multiplier : ℚ
  jitter : Bool
deriving Repr, DecidableEq

/-- utils/error_handler.py `RetryHandler.calculate_delay`; `r` models
the `random.random()` draw, a uniform value in `[0, 1)`. -/
def calculate_delay (config : RetryConfig) (attempt : ℕ) (r : ℚ) : ℚ :=
  let delay :=
    match config.strategy with
    | .FIXED_DELAY => config.base_delay
    | .EXPONENTIAL_BACKOFF =>
        config.base_delay * config.backoff_multiplier ^ (attempt - 1)
    | .LINEAR_BACKOFF => config.base_delay * attempt
  let delay := min delay config.max_delay
  if config.jitter then delay * (1/2 + r * (1/2)) else delay

/-- The delay the spec's words describe for the jittered case: the
capped strategy delay "jittered (±50%, uniform)", i.e. multiplied by a
uniform factor spanning `[0.5, 1.5)` — at draw `r ∈ [0, 1)` that factor
is `1/2 + r`.  Stated for comparison against `calculate_delay`. -/
def spec_jittered_delay (config : RetryConfig) (attempt : ℕ) (r : ℚ) : ℚ :=
  let delay :=
    match config.strategy with
    | .FIXED_DELAY => config.base_delay
    | .EXPONENTIAL_BACKOFF =>
        config.base_delay * config.backoff_multiplier ^ (attempt - 1)
    | .LINEAR_BACKOFF => config.base_delay * attempt
  min delay config.max_delay * (1/2 + r)

/-- utils/resilience.py `PartialFailureHandler` (accumulated fields). -/
structure PartialFailureHandler where
  continue_on_partial_failure : Bool
  failed_services : List String
  successful_services : List String
deriving Repr, DecidableEq

namespace PartialFailureHandler

/-- utils/resilience.py `PartialFailureHandler.handle_service_result`
(the `error` argument is only logged). -/
def handle_service_result (h : PartialFailureHandler) (service_name : String)
    (success : Bool) (error : Option String) : PartialFailureHandler :=
  match error with
  | _ =>
    if success then
      { h with successful_services := h.successful_services ++ [service_name] }
    else
      { h with failed_services := h.failed_services ++ [service_name] }

/-- utils/resilience.py `PartialFailureHandler.should_continue`. -/
def should_continue (h : PartialFailureHandler) : Bool :=
  if !h.continue_on_partial_failure then
    decide (h.failed_services.length = 0)
  else
    decide (0 < h.successful_services.length) ||
      decide (h.failed_services.length = 0)

end PartialFailureHandler

/-- Configuration dict for one service as consumed by
checkers/factory.py `create_checker` and
services/monitor_scheduler.py `configure_services`: the `type` key, the
optional `check_interval` key, and the outcome of the created checker's
`validate_config()`. -/
structure ServiceConfig where
  svc_type : Option String
  check_interval : Option ℤ
  validates : Bool
deriving Repr, DecidableEq

/-- checkers/factory.py `HealthCheckerFactory.create_checker`:
fails when the `type` key is missing, the type is not registered, the
checker's constructor/`validate_config()` fails.  The created checker is
represented by its configuration. -/
def create_checker (supported : List String) (service_name : String)
    (service_config : ServiceConfig) : Except Unit ServiceConfig :=
  match service_config.svc_type with
  | none => .error ()
  | some t =>
      if supported.contains t then
        if service_config.validates then .ok service_config else .error ()
      else
        .error ()

/-- services/monitor_scheduler.py `MonitorScheduler` (the probe-set
fields mutated by `configure_services`). -/
structure MonitorScheduler where
  checkers : List (String × ServiceConfig)
  check_intervals : List (String × ℤ)
  last_check_times : List (String × ℚ)
deriving Repr, DecidableEq

namespace MonitorScheduler

/-- The `for service_name, service_config in services_config.items()`
loop of services/monitor_scheduler.py `configure_services`; mutations
performed before the raise are kept, as in the source. -/
def configure_loop (supported : List String) (default_interval : ℤ) :
    MonitorScheduler → List (String × ServiceConfig) →
    Except Unit Unit × MonitorScheduler
  | s, [] => (.ok (), s)
  | s, (service_name, service_config) :: rest =>
      match create_checker supported service_name service_config with
      | .error e => (.error e, s)
      | .ok checker =>
          let s1 := { s with checkers := dset s.checkers service_name checker }
          let check_interval := service_config.check_interval.getD default_interval
          if check_interval ≤ 0 then
            (.error (), s1)
          else
            configure_loop supported default_interval
              { s1 with
                  check_intervals :=
                    dset s1.check_intervals service_name check_interval }
              rest

/-- services/monitor_scheduler.py `MonitorScheduler.configure_services`:
clears the existing configuration, then configures each entry in order,
propagating the first error.  `global_check_interval` is
`global_config.get('check_interval', 30)`. -/
def configure_services (s : MonitorScheduler) (supported : List String)
    (services_config : List (String × ServiceConfig))
    (global_check_interval : Option ℤ) :
    Except Unit Unit × MonitorScheduler :=
  let default_interval := global_check_interval.getD 30
  let cleared : MonitorScheduler :=
    { checkers := [], check_intervals := [], last_check_times := [] }
  configure_loop supported default_interval cleared services_config

end MonitorScheduler

end HealthMonitor

namespace HealthMonitor

open StateManager AlertManager CircuitBreaker MonitorScheduler PartialFailureHandler

theorem dget_dset_same {β : Type} (l : List (String × β)) (k : String) (v : β) :
    dget (dset l k v) k = some v := by
  simp [dget, dset]

/-- Claim C1: for every check result fed to `StateManager.update_state`:
with no recorded state for the service, the result's health is recorded
as baseline and no `StateChange` is returned; with a recorded state equal
to the result's health, no `StateChange` is returned; with a recorded
state differing from the result's health, the recorded boolean is updated
and exactly one `StateChange` is returned, whose `old_state` is the
previously recorded value and whose `new_state` is the result's health. -/
theorem update_state_spec (m : StateManager) (r : HealthCheckResult) :
    (dget m.current_states r.service_name = none →
      (update_state m r).1 = none ∧
      dget (update_state m r).2.current_states r.service_name =
        some r.is_healthy ∧
      (update_state m r).2.state_changes = m.state_changes) ∧
    (∀ b : Bool, dget m.current_states r.service_name = some b →
      b = r.is_healthy →
      (update_state m r).1 = none ∧
      (update_state m r).2.state_changes = m.state_changes) ∧
    (∀ b : Bool, dget m.current_states r.service_name = some b →
      b ≠ r.is_healthy →
      ∃ c : StateChange,
        (update_state m r).1 = some c ∧
        c.old_state = b ∧
        c.new_state = r.is_healthy ∧
        dget (update_state m r).2.current_states r.service_name =
          some r.is_healthy ∧
        (update_state m r).2.state_changes = m.state_changes ++ [c]) := by
  refine ⟨?_, ?_, ?_⟩
  · intro h
    simp [update_state, h, dget_dset_same]
  · intro b h heq
    simp [update_state, h, heq]
  · intro b h hne
    simp [update_state, h, hne, dget_dset_same]

/-- Witness for C1: all three branches of `update_state_spec` exercised
on concrete inputs. -/
theorem update_state_spec_witness :
    (let r : HealthCheckResult :=
      { service_name := "redis", service_type := "redis", is_healthy := true
        response_time := 1, error_message := none, timestamp := 0 }
     let m0 : StateManager := ⟨[], [], []⟩
     let m1 : StateManager := ⟨[("redis", true)], [], []⟩
     let m2 : StateManager := ⟨[("redis", false)], [], []⟩
     (update_state m0 r).1 = none ∧
     (update_state m1 r).1 = none ∧
     ∃ c, (update_state m2 r).1 = some c ∧ c.old_state = false ∧
          c.new_state = true) := by
  refine ⟨((update_state_spec _ _).1 (by decide)).1,
          ((update_state_spec _ _).2.1 true (by decide) (by decide)).1, ?_⟩
  obtain ⟨c, h1, h2, h3, -⟩ :=
    (update_state_spec ⟨[("redis", false)], [], []⟩
      { service_name := "redis", service_type := "redis", is_healthy := true
        response_time := 1, error_message := none, timestamp := 0 }).2.2
      false (by decide) (by decide)
  exact ⟨c, h1, h2, h3⟩

theorem record_alert_alerters (m : AlertManager) (msg : AlertMessage)
    (now : ℚ) : (record_alert m msg now).alerters = m.alerters := rfl

theorem record_alert_threshold (m : AlertManager) (msg : AlertMessage)
    (now : ℚ) :
    (record_alert m msg now).duplicate_threshold = m.duplicate_threshold := rfl

theorem dget_record_alert_same (m : AlertManager) (msg : AlertMessage)
    (h_thr : 0 < m.duplicate_threshold) :
    dget (record_alert m msg msg.timestamp).alert_history (alert_key msg) =
      some msg.timestamp := by
  simp [record_alert, cleanup_alert_history, dset, dget, h_thr.le]

theorem alert_key_eq (sc sc' : StateChange)
    (h_name : sc'.service_name = sc.service_name)
    (h_state : sc'.new_state = sc.new_state) :
    alert_key (create_alert_message sc') = alert_key (create_alert_message sc) := by
  simp [alert_key, create_alert_message, h_name, h_state]

/-- Claim C2: if `send_alert` (with at least one registered alerter)
emits a notification for key `(service_name, status)` at time `t` (the
state change's timestamp), then a later `send_alert` for the same key
with a timestamp within the dedup window of `t` sends nothing and leaves
the manager unchanged, and a `send_alert` for the same key with a
timestamp past the window emits a new notification. -/
theorem send_alert_dedup_window
    (m : AlertManager) (sc1 sc2 sc3 : StateChange)
    (d1 d2 d3 : String → Bool) (now2 now3 : ℚ)
    (h_thr : 0 < m.duplicate_threshold)
    (h_emit : (send_alert m sc1.timestamp sc1 d1).1 ≠ none)
    (h_name2 : sc2.service_name = sc1.service_name)
    (h_state2 : sc2.new_state = sc1.new_state)
    (h_in : sc2.timestamp - sc1.timestamp < m.duplicate_threshold)
    (h_name3 : sc3.service_name = sc1.service_name)
    (h_state3 : sc3.new_state = sc1.new_state)
    (h_out : m.duplicate_threshold ≤ sc3.timestamp - sc1.timestamp) :
    (send_alert (send_alert m sc1.timestamp sc1 d1).2.2 now2 sc2 d2).1 = none ∧
    (send_alert (send_alert m sc1.timestamp sc1 d1).2.2 now2 sc2 d2).2.2 =
      (send_alert m sc1.timestamp sc1 d1).2.2 ∧
    (send_alert
        (send_alert (send_alert m sc1.timestamp sc1 d1).2.2 now2 sc2 d2).2.2
        now3 sc3 d3).1 ≠ none := by
  classical
  by_cases hA : m.alerters = []
  · simp [send_alert, hA] at h_emit
  by_cases hD : should_deduplicate m (create_alert_message sc1) = true
  · simp [send_alert, hA, hD] at h_emit
  have hm1 : (send_alert m sc1.timestamp sc1 d1).2.2 =
      record_alert m (create_alert_message sc1) sc1.timestamp := by
    simp [send_alert, hA, hD]
  have hts1 : (create_alert_message sc1).timestamp = sc1.timestamp := rfl
  have hget : dget
      (record_alert m (create_alert_message sc1) sc1.timestamp).alert_history
      (alert_key (create_alert_message sc1)) =
        some sc1.timestamp := by
    have h := dget_record_alert_same m (create_alert_message sc1) h_thr
    rwa [hts1] at h
  have hd2 : should_deduplicate
      (record_alert m (create_alert_message sc1) sc1.timestamp)
      (create_alert_message sc2) = true := by
    unfold should_deduplicate
    rw [alert_key_eq sc1 sc2 h_name2 h_state2, hget]
    simp [create_alert_message, record_alert_threshold, h_in]
  have hd3 : should_deduplicate
      (record_alert m (create_alert_message sc1) sc1.timestamp)
      (create_alert_message sc3) = false := by
    unfold should_deduplicate
    rw [alert_key_eq sc1 sc3 h_name3 h_state3, hget]
    simp [create_alert_message, record_alert_threshold]
    linarith
  have hA1 : (record_alert m (create_alert_message sc1) sc1.timestamp).alerters ≠ [] := by
    rw [record_alert_alerters]; exact hA
  refine ⟨?_, ?_, ?_⟩
  · rw [hm1]; simp [send_alert, hA1, hd2]
  · rw [hm1]; simp [send_alert, hA1, hd2]
  · rw [hm1]
    have h2 : (send_alert (record_alert m (create_alert_message sc1)
        sc1.timestamp) now2 sc2 d2).2.2 =
          record_alert m (create_alert_message sc1) sc1.timestamp := by
      simp [send_alert, hA1, hd2]
    rw [h2]
    simp [send_alert, hA1, hd3]

/-- Witness for C2: two DOWN events for service `x` 100 seconds apart
produce one emission, and a third 400 seconds after the first produces a
second emission (window 300 seconds). -/
theorem send_alert_dedup_window_witness :
    (let m : AlertManager := ⟨["mail"], [], 300⟩
     let sc1 : StateChange := ⟨"x", "redis", true, false, 0, none, none⟩
     let sc2 : StateChange := ⟨"x", "redis", true, false, 100, none, none⟩
     let sc3 : StateChange := ⟨"x", "redis", true, false, 400, none, none⟩
     let d : String → Bool := fun _ => true
     (send_alert (send_alert m 0 sc1 d).2.2 100 sc2 d).1 = none ∧
     (send_alert (send_alert (send_alert m 0 sc1 d).2.2 100 sc2 d).2.2
        400 sc3 d).1 ≠ none) := by
  have h := send_alert_dedup_window ⟨["mail"], [], 300⟩
    ⟨"x", "redis", true, false, 0, none, none⟩
    ⟨"x", "redis", true, false, 100, none, none⟩
    ⟨"x", "redis", true, false, 400, none, none⟩
    (fun _ => true) (fun _ => true) (fun _ => true) 100 400
    (by norm_num) (by decide) rfl rfl (by norm_num) rfl rfl (by norm_num)
  exact ⟨h.1, h.2.2⟩

/-- Claim C10 (implicit): `send_alert` records the dedup timestamp
before invoking any alerter: the resulting manager state is independent
of the delivery outcomes, so even when every registered alerter fails to
deliver, a later `send_alert` for the same key within the dedup window
is still suppressed. -/
theorem send_alert_records_before_delivery
    (m : AlertManager) (sc1 sc2 : StateChange)
    (d1 d2 : String → Bool) (now2 : ℚ)
    (h_thr : 0 < m.duplicate_threshold)
    (h_fail : ∀ a, d1 a = false)
    (h_emit : (send_alert m sc1.timestamp sc1 d1).1 ≠ none)
    (h_name2 : sc2.service_name = sc1.service_name)
    (h_state2 : sc2.new_state = sc1.new_state)
    (h_in : sc2.timestamp - sc1.timestamp < m.duplicate_threshold) :
    (∀ p ∈ (send_alert m sc1.timestamp sc1 d1).2.1, p.2 = false) ∧
    (∀ (d d' : String → Bool) (now : ℚ) (sc : StateChange),
      (send_alert m now sc d).2.2 = (send_alert m now sc d').2.2) ∧
    (send_alert (send_alert m sc1.timestamp sc1 d1).2.2 now2 sc2 d2).1 =
      none := by
  classical
  by_cases hA : m.alerters = []
  · simp [send_alert, hA] at h_emit
  by_cases hD : should_deduplicate m (create_alert_message sc1) = true
  · simp [send_alert, hA, hD] at h_emit
  have hm1 : (send_alert m sc1.timestamp sc1 d1).2.2 =
      record_alert m (create_alert_message sc1) sc1.timestamp := by
    simp [send_alert, hA, hD]
  have hts1 : (create_alert_message sc1).timestamp = sc1.timestamp := rfl
  have hget : dget
      (record_alert m (create_alert_message sc1) sc1.timestamp).alert_history
      (alert_key (create_alert_message sc1)) =
        some sc1.timestamp := by
    have h := dget_record_alert_same m (create_alert_message sc1) h_thr
    rwa [hts1] at h
  have hd2 : should_deduplicate
      (record_alert m (create_alert_message sc1) sc1.timestamp)
      (create_alert_message sc2) = true := by
    unfold should_deduplicate
    rw [alert_key_eq sc1 sc2 h_name2 h_state2, hget]
    simp [create_alert_message, record_alert_threshold, h_in]
  have hA1 : (record_alert m (create_alert_message sc1) sc1.timestamp).alerters ≠ [] := by
    rw [record_alert_alerters]; exact hA
  refine ⟨?_, ?_, ?_⟩
  · intro p hp
    simp only [send_alert] at hp
    rw [if_neg hA, if_neg hD] at hp
    rcases List.mem_map.1 hp with ⟨a, -, rfl⟩
    exact h_fail a
  · intro d d' now sc
    by_cases hA' : m.alerters = []
    · simp [send_alert, hA']
    by_cases hD' : should_deduplicate m (create_alert_message sc) = true
    · simp [send_alert, hA', hD']
    · simp [send_alert, hA', hD']
  · rw [hm1]; simp [send_alert, hA1, hd2]

/-- Witness for C10: a DOWN event whose delivery fails on the only
alerter still suppresses the next DOWN event 100 seconds later. -/
theorem send_alert_records_before_delivery_witness :
    (let m : AlertManager := ⟨["mail"], [], 300⟩
     let sc1 : StateChange := ⟨"x", "redis", true, false, 0, none, none⟩
     let sc2 : StateChange := ⟨"x", "redis", true, false, 100, none, none⟩
     let dfail : String → Bool := fun _ => false
     (send_alert (send_alert m 0 sc1 dfail).2.2 100 sc2 dfail).1 = none) := by
  exact (send_alert_records_before_delivery ⟨["mail"], [], 300⟩
    ⟨"x", "redis", true, false, 0, none, none⟩
    ⟨"x", "redis", true, false, 100, none, none⟩
    (fun _ => false) (fun _ => false) 100
    (by norm_num) (fun _ => rfl) (by decide) rfl rfl (by norm_num)).2.2


theorem record_failure_keeps_open (cb : CircuitBreaker) (t : ℚ)
    (h : cb.state = .OPEN) : (record_failure cb t).state = .OPEN := by
  simp [record_failure, h]

theorem record_failure_closed_below (cb : CircuitBreaker) (t : ℚ)
    (hclosed : cb.state = .CLOSED)
    (h : ¬ cb.config.failure_threshold ≤ cb.failure_count + 1) :
    record_failure cb t =
      { cb with failure_count := cb.failure_count + 1,
                last_failure_time := t } := by
  simp [record_failure, hclosed, h]

/-- Claim C3: under any interleaving of `should_allow_request`,
`record_success` and `record_failure`, a circuit breaker only moves along
the edges CLOSED→OPEN (consecutive-failure count reaching the
threshold), OPEN→HALF_OPEN (on a call attempt once the recovery timeout
has elapsed since the last failure), HALF_OPEN→CLOSED (after
`half_open_max_calls` consecutive successes) and HALF_OPEN→OPEN (on any
failure); no transition skips a state. -/
theorem cb_transitions_follow_edges (cb : CircuitBreaker) (e : CBEvent) :
    (cb_step cb e).state = cb.state ∨
    (cb.state = .CLOSED ∧ (cb_step cb e).state = .OPEN ∧
      (∃ now, e = .record_fail now) ∧
      cb.config.failure_threshold ≤ cb.failure_count + 1) ∨
    (cb.state = .OPEN ∧ (cb_step cb e).state = .HALF_OPEN ∧
      (∃ now, e = .allow_request now ∧
        cb.config.recovery_timeout ≤ now - cb.last_failure_time)) ∨
    (cb.state = .HALF_OPEN ∧ (cb_step cb e).state = .CLOSED ∧
      e = .record_succ ∧
      cb.config.half_open_max_calls ≤ cb.success_count + 1) ∨
    (cb.state = .HALF_OPEN ∧ (cb_step cb e).state = .OPEN ∧
      ∃ now, e = .record_fail now) := by
  cases e with
  | allow_request now =>
      cases hst : cb.state with
      | CLOSED => left; simp [cb_step, should_allow_request, hst]
      | OPEN =>
          by_cases h : cb.config.recovery_timeout ≤ now - cb.last_failure_time
          · right; right; left
            exact ⟨rfl, by simp [cb_step, should_allow_request, hst, h],
                   now, rfl, h⟩
          · left; simp [cb_step, should_allow_request, hst, h]
      | HALF_OPEN => left; simp [cb_step, should_allow_request, hst]
  | record_succ =>
      cases hst : cb.state with
      | CLOSED => left; simp [cb_step, record_success, hst]
      | OPEN => left; simp [cb_step, record_success, hst]
      | HALF_OPEN =>
          by_cases h : cb.config.half_open_max_calls ≤ cb.success_count + 1
          · right; right; right; left
            exact ⟨rfl, by simp [cb_step, record_success, hst, h], rfl, h⟩
          · left; simp [cb_step, record_success, hst, h]
  | record_fail now =>
      cases hst : cb.state with
      | CLOSED =>
          by_cases h : cb.config.failure_threshold ≤ cb.failure_count + 1
          · right; left
            exact ⟨rfl, by simp [cb_step, record_failure, hst, h], ⟨now, rfl⟩, h⟩
          · left; simp [cb_step, record_failure, hst, h]
      | OPEN => left; simp [cb_step, record_failure, hst]
      | HALF_OPEN =>
          right; right; right; right
          exact ⟨rfl, by simp [cb_step, record_failure, hst], now, rfl⟩

/-- Claim C4: with `failure_threshold = 3`, three consecutive
`record_failure` calls starting from CLOSED put the breaker in OPEN;
while OPEN and before the recovery timeout has elapsed since the last
failure, a call through the `with_circuit_breaker` wrapper yields a
`CheckerError` with `ErrorCode.SERVICE_UNAVAILABLE` without invoking the
wrapped operation; once the recovery timeout has elapsed, the next call
is admitted and the breaker's state is HALF_OPEN. -/
theorem circuit_breaker_fail_fast_spec {α : Type} :
    (∀ (cb : CircuitBreaker) (t1 t2 t3 : ℚ),
      cb.config.failure_threshold = 3 → cb.state = .CLOSED →
      (record_failure (record_failure (record_failure cb t1) t2) t3).state =
        .OPEN) ∧
    (∀ (cb : CircuitBreaker) (now : ℚ) (op_result : Except Unit α),
      cb.state = .OPEN →
      now - cb.last_failure_time < cb.config.recovery_timeout →
      circuit_breaker_call cb now op_result =
        (.checker_error .SERVICE_UNAVAILABLE false, cb, false)) ∧
    (∀ (cb : CircuitBreaker) (now : ℚ) (op_result : Except Unit α),
      cb.state = .OPEN →
      cb.config.recovery_timeout ≤ now - cb.last_failure_time →
      (should_allow_request cb now).1 = true ∧
      (should_allow_request cb now).2.state = .HALF_OPEN ∧
      (circuit_breaker_call cb now op_result).2.2 = true) := by
  refine ⟨?_, ?_, ?_⟩
  · intro cb t1 t2 t3 hthr hclosed
    obtain ⟨nm, cfg, st, fc, lft, sc⟩ := cb
    simp only at hclosed hthr
    subst hclosed
    obtain ⟨ft, rt, hm⟩ := cfg
    simp only at hthr
    subst hthr
    by_cases h1 : 3 ≤ fc + 1
    · simp [record_failure, h1]
    · by_cases h2 : 3 ≤ fc + 1 + 1
      · simp [record_failure, h1, h2]
      · simp [record_failure, h1, h2, show 3 ≤ fc + 1 + 1 + 1 by omega]
  · intro cb now op_result hopen hlt
    have hna : ¬ cb.config.recovery_timeout ≤ now - cb.last_failure_time := by
      linarith
    simp [circuit_breaker_call, should_allow_request, hopen, hna]
  · intro cb now op_result hopen hge
    refine ⟨by simp [should_allow_request, hopen, hge],
            by simp [should_allow_request, hopen, hge], ?_⟩
    simp [circuit_breaker_call, should_allow_request, hopen, hge]
    cases op_result <;> simp

/-- Witness for C4: a fresh breaker with threshold 3, recovery timeout
60; failures at times 0, 1, 2, a rejected call at time 10 and an
admitted call at time 62. -/
theorem circuit_breaker_fail_fast_spec_witness :
    (let cb : CircuitBreaker := ⟨"svc", ⟨3, 60, 3⟩, .CLOSED, 0, 0, 0⟩
     let cb3 := record_failure (record_failure (record_failure cb 0) 1) 2
     cb3.state = .OPEN ∧
     circuit_breaker_call cb3 10 (Except.ok (5 : ℤ)) =
       (.checker_error .SERVICE_UNAVAILABLE false, cb3, false) ∧
     (should_allow_request cb3 62).1 = true ∧
     (should_allow_request cb3 62).2.state = .HALF_OPEN) := by
  have h := circuit_breaker_fail_fast_spec (α := ℤ)
  have h1 := h.1 ⟨"svc", ⟨3, 60, 3⟩, .CLOSED, 0, 0, 0⟩ 0 1 2 rfl rfl
  refine ⟨h1, h.2.1 _ 10 (Except.ok 5) h1 (by norm_num [record_failure]), ?_, ?_⟩
  · exact (h.2.2 _ 62 (Except.ok 5) h1 (by norm_num [record_failure])).1
  · exact (h.2.2 _ 62 (Except.ok 5) h1 (by norm_num [record_failure])).2.1


/-- Counterexample to claim C5: with one previously configured service
`old`, a `configure_services` call whose map holds a valid entry `a`
followed by an invalid entry `b` fails, yet the probe set is NOT left as
it was: `old` is gone and `a` has been applied. -/
theorem configure_services_not_atomic_counterexample :
    (let s0 : MonitorScheduler :=
       ⟨[("old", ⟨some "redis", some 30, true⟩)], [("old", 30)], []⟩
     let good : ServiceConfig := ⟨some "redis", some 60, true⟩
     let bad : ServiceConfig := ⟨none, some 60, true⟩
     let out := configure_services s0 ["redis"] [("a", good), ("b", bad)] none
     out.1 = .error () ∧
     out.2.checkers ≠ s0.checkers ∧
     dget out.2.checkers "old" = none ∧
     dget out.2.checkers "a" = some good) := by
  exact ⟨rfl, by decide, rfl, rfl⟩

theorem configure_loop_append_ok (supported : List String) (d : ℤ)
    (st : MonitorScheduler) (pre rest : List (String × ServiceConfig))
    (h_pre : ∀ e ∈ pre, create_checker supported e.1 e.2 = .ok e.2 ∧
        ¬ e.2.check_interval.getD d ≤ 0) :
    configure_loop supported d st (pre ++ rest) =
      configure_loop supported d (configure_loop supported d st pre).2 rest := by
  induction pre generalizing st with
  | nil => simp [configure_loop]
  | cons e pre ih =>
      obtain ⟨h1, h2⟩ := h_pre e (List.mem_cons_self ..)
      obtain ⟨nm, cfg⟩ := e
      simp only at h1 h2
      simp only [List.cons_append, configure_loop, h1, if_neg h2]
      exact ih _ (fun e he => h_pre e (List.mem_cons_of_mem _ he))

/-- Claim C5, amended: when the services map holds an entry whose checker
creation fails, `configure_services` fails as a whole, but not
atomically: the pre-existing probe set has been cleared and the
resulting state is exactly the one produced by configuring just the
valid entries preceding the invalid one from scratch. -/
theorem configure_services_error_keeps_prefix
    (s : MonitorScheduler) (supported : List String)
    (pre rest : List (String × ServiceConfig))
    (name : String) (cfg : ServiceConfig) (g : Option ℤ)
    (h_pre : ∀ e ∈ pre, create_checker supported e.1 e.2 = .ok e.2 ∧
        ¬ e.2.check_interval.getD (g.getD 30) ≤ 0)
    (h_bad : create_checker supported name cfg = .error ()) :
    (configure_services s supported (pre ++ (name, cfg) :: rest) g).1 =
      .error () ∧
    (configure_services s supported (pre ++ (name, cfg) :: rest) g).2 =
      (configure_services s supported pre g).2 := by
  have hsplit := configure_loop_append_ok supported (g.getD 30)
    ⟨[], [], []⟩ pre ((name, cfg) :: rest) h_pre
  unfold configure_services
  simp only [hsplit, configure_loop, h_bad]
  exact ⟨trivial, trivial⟩

/-- Witness for the amended C5: valid prefix `[a]`, invalid entry `b`. -/
theorem configure_services_error_keeps_prefix_witness :
    (let s0 : MonitorScheduler :=
       ⟨[("old", ⟨some "redis", some 30, true⟩)], [("old", 30)], []⟩
     let good : ServiceConfig := ⟨some "redis", some 60, true⟩
     let bad : ServiceConfig := ⟨none, some 60, true⟩
     (configure_services s0 ["redis"] [("a", good), ("b", bad)] none).1 =
       .error () ∧
     (configure_services s0 ["redis"] [("a", good), ("b", bad)] none).2 =
       (configure_services s0 ["redis"] [("a", good)] none).2) := by
  exact configure_services_error_keeps_prefix
    ⟨[("old", ⟨some "redis", some 30, true⟩)], [("old", 30)], []⟩
    ["redis"] [("a", ⟨some "redis", some 60, true⟩)] []
    "b" ⟨none, some 60, true⟩ none
    (by intro e he
        simp only [List.mem_singleton] at he
        subst he
        exact ⟨rfl, by decide⟩)
    rfl

open ResilienceManager in
/-- Counterexample to claim C6: a key degraded by two failures (window
300s, max 2) stays DEGRADED after a call whose wrapped operation would
succeed — the call short-circuits to the fallback value `0` instead of
invoking the operation (which would return `7`), and the state is not
reset to HEALTHY. -/
theorem with_fallback_degraded_no_reset_counterexample :
    (let fc : FallbackConfig ℤ :=
       { enabled := true, fallback_value := 0, fallback_function := none
         max_failures := 2, failure_window := 300 }
     let m0 : ResilienceManager ℤ := ⟨[("svc", fc)], [], []⟩
     let m1 := (with_fallback_call m0 "svc" 0 (.error ())).2
     let m2 := (with_fallback_call m1 "svc" 1 (.error ())).2
     get_service_state m2 "svc" = .DEGRADED ∧
     (with_fallback_call m2 "svc" 2 (.ok 7)).1 = .ok (some 0) ∧
     get_service_state (with_fallback_call m2 "svc" 2 (.ok 7)).2 "svc" =
       .DEGRADED) := by
  norm_num [with_fallback_call, should_use_fallback, get_service_state,
    ResilienceManager.record_failure, update_service_state,
    get_fallback_value, dget, dset, List.filter]

open ResilienceManager in
/-- Claim C6, amended: once the failures recorded within the window
reach `max_failures` the key's state becomes DEGRADED; while the key is
degraded every call short-circuits to the fallback value or function
(an erroring fallback function falls back to the static value) without
invoking the wrapped operation and without changing the state — so the
state is never reset to HEALTHY while degraded; a success (possible only
while not degraded) sets the state to HEALTHY but does not clear the
failure window. -/
theorem with_fallback_degradation_spec {α : Type} :
    (∀ (m : ResilienceManager α) (name : String) (now : ℚ)
        (fc : FallbackConfig α),
      dget m.fallback_configs name = some fc →
      fc.max_failures ≤
        ((dget (ResilienceManager.record_failure m name now).failure_counts
          name).getD []).length →
      get_service_state (ResilienceManager.record_failure m name now) name =
        .DEGRADED) ∧
    (∀ (m : ResilienceManager α) (name : String) (now : ℚ)
        (func_result : Except Unit α),
      should_use_fallback m name = true →
      with_fallback_call m name now func_result =
        (.ok (get_fallback_value m name), m)) ∧
    (∀ (m : ResilienceManager α) (name : String) (fc : FallbackConfig α)
        (e : Unit),
      dget m.fallback_configs name = some fc →
      fc.fallback_function = some (.error e) →
      get_fallback_value m name = some fc.fallback_value) ∧
    (∀ (m : ResilienceManager α) (name : String) (now : ℚ) (v : α),
      should_use_fallback m name = false →
      (with_fallback_call m name now (.ok v)).1 = .ok (some v) ∧
      get_service_state (with_fallback_call m name now (.ok v)).2 name =
        .HEALTHY ∧
      (with_fallback_call m name now (.ok v)).2.failure_counts =
        m.failure_counts) := by
  refine ⟨?_, ?_, ?_, ?_⟩
  · intro m name now fc hfc hlen
    simp only [ResilienceManager.record_failure, hfc] at hlen ⊢
    by_cases hcond : fc.max_failures ≤
        (List.filter (fun t => decide (now - fc.failure_window ≤ t))
          ((dget m.failure_counts name).getD [] ++ [now])).length
    · rw [if_pos hcond]
      simp [get_service_state, update_service_state, dget_dset_same]
    · rw [if_neg hcond] at hlen
      exact absurd (by simpa [dget_dset_same] using hlen) hcond
  · intro m name now func_result h
    simp [with_fallback_call, h]
  · intro m name fc e hfc hff
    simp [get_fallback_value, hfc, hff]
  · intro m name now v h
    refine ⟨by simp [with_fallback_call, h], ?_,
            by simp [with_fallback_call, h, update_service_state]⟩
    simp [with_fallback_call, h, update_service_state, get_service_state,
          dget_dset_same]

open ResilienceManager in
/-- Witness for the amended C6: the concrete degrade-then-short-circuit
scenario, plus a success while healthy. -/
theorem with_fallback_degradation_spec_witness :
    (let fc : FallbackConfig ℤ :=
       { enabled := true, fallback_value := 0, fallback_function := none
         max_failures := 2, failure_window := 300 }
     let m0 : ResilienceManager ℤ := ⟨[("svc", fc)], [], []⟩
     let m2 := (with_fallback_call
       (with_fallback_call m0 "svc" 0 (.error ())).2 "svc" 1 (.error ())).2
     with_fallback_call m2 "svc" 2 (.ok 7) =
       (.ok (get_fallback_value m2 "svc"), m2) ∧
     (with_fallback_call m0 "svc" 0 (.ok 7)).1 = .ok (some 7) ∧
     get_service_state (with_fallback_call m0 "svc" 0 (.ok 7)).2 "svc" =
       .HEALTHY) := by
  refine ⟨(with_fallback_degradation_spec (α := ℤ)).2.1 _ "svc" 2
            (Except.ok 7)
            (by norm_num [with_fallback_call, should_use_fallback,
              get_service_state, ResilienceManager.record_failure,
              update_service_state, get_fallback_value, dget, dset,
              List.filter]), ?_, ?_⟩
  · exact ((with_fallback_degradation_spec (α := ℤ)).2.2.2 _ "svc" 0 7
      (by decide)).1
  · exact ((with_fallback_degradation_spec (α := ℤ)).2.2.2 _ "svc" 0 7
      (by decide)).2.1

/-- Counterexample to claim C7: the claim's ±50% uniform jitter would
turn a capped fixed delay of 1 into 1.4 at a random draw of 0.9, but
`calculate_delay` returns 0.95 — the code's jitter factor spans
`[0.5, 1.0)`, never exceeding the capped delay. -/
theorem calculate_delay_jitter_counterexample :
    (let c : RetryConfig :=
       { base_delay := 1, max_delay := 60, strategy := .FIXED_DELAY
         backoff_multiplier := 2, jitter := true }
     spec_jittered_delay c 1 (9/10) = 7/5 ∧
     calculate_delay c 1 (9/10) = 19/20 ∧
     spec_jittered_delay c 1 (9/10) ≠ calculate_delay c 1 (9/10)) := by
  refine ⟨?_, ?_, ?_⟩ <;> norm_num [spec_jittered_delay, calculate_delay]

/-- Claim C7, amended: for attempts `n ≥ 1` the unjittered delay is the
strategy formula capped at `max_delay` (fixed: base; linear: base·n;
exponential: base·multiplier^(n−1)); with jitter enabled the returned
delay is the capped value multiplied by `1/2 + r/2` for the uniform draw
`r ∈ [0, 1)` — i.e. jittered by −50% to −0% (reduced by up to half,
never increased), not ±50%. -/
theorem calculate_delay_spec (c : RetryConfig) (n : ℕ) (r : ℚ)
    (hn : 1 ≤ n) :
    (c.jitter = false →
      (c.strategy = .FIXED_DELAY →
        calculate_delay c n r = min c.base_delay c.max_delay) ∧
      (c.strategy = .LINEAR_BACKOFF →
        calculate_delay c n r = min (c.base_delay * n) c.max_delay) ∧
      (c.strategy = .EXPONENTIAL_BACKOFF →
        calculate_delay c n r =
          min (c.base_delay * c.backoff_multiplier ^ (n - 1)) c.max_delay)) ∧
    (c.jitter = true →
      calculate_delay c n r =
        calculate_delay { c with jitter := false } n r * (1/2 + r * (1/2))) ∧
    (c.jitter = true → 0 ≤ r → r < 1 →
      0 ≤ calculate_delay { c with jitter := false } n r →
      calculate_delay { c with jitter := false } n r / 2 ≤
          calculate_delay c n r ∧
      calculate_delay c n r ≤ calculate_delay { c with jitter := false } n r) := by
  refine ⟨?_, ?_, ?_⟩
  · intro hj
    refine ⟨fun hs => ?_, fun hs => ?_, fun hs => ?_⟩ <;>
      simp [calculate_delay, hj, hs]
  · intro hj
    simp [calculate_delay, hj]
  · intro hj hr0 hr1 hd
    have heq : calculate_delay c n r =
        calculate_delay { c with jitter := false } n r * (1/2 + r * (1/2)) := by
      simp [calculate_delay, hj]
    constructor
    · rw [heq]; nlinarith
    · rw [heq]; nlinarith

/-- Witness for the amended C7: fixed strategy, base 1, cap 60, draw
0.9 — the jittered delay 0.95 sits in `[0.5, 1]`. -/
theorem calculate_delay_spec_witness :
    (let c : RetryConfig :=
       { base_delay := 1, max_delay := 60, strategy := .FIXED_DELAY
         backoff_multiplier := 2, jitter := true }
     calculate_delay c 1 (9/10) =
       calculate_delay { c with jitter := false } 1 (9/10) *
         (1/2 + (9/10) * (1/2)) ∧
     calculate_delay { c with jitter := false } 1 (9/10) / 2 ≤
       calculate_delay c 1 (9/10) ∧
     calculate_delay c 1 (9/10) ≤
       calculate_delay { c with jitter := false } 1 (9/10)) := by
  have h := calculate_delay_spec
    { base_delay := 1, max_delay := 60, strategy := .FIXED_DELAY
      backoff_multiplier := 2, jitter := true } 1 (9/10) (by norm_num)
  have hb := h.2.2 rfl (by norm_num) (by norm_num)
    (by norm_num [calculate_delay])
  exact ⟨h.2.1 rfl, hb.1, hb.2⟩

/-- Counterexample to claim C8: a handler configured to tolerate partial
failure (`continue_on_partial_failure = true`) that has recorded one
failure and no success returns `false` from `should_continue`, though
the claim says tolerating handlers always return `true`. -/
theorem should_continue_counterexample :
    should_continue
      (handle_service_result ⟨true, [], []⟩ "a" false none) = false := by
  rfl

/-- Claim C8, amended: `should_continue` returns true iff zero failures
were recorded, or partial failure is tolerated and at least one success
was recorded; in particular a tolerating handler with only failures
returns false. -/
theorem should_continue_spec (h : PartialFailureHandler) :
    should_continue h = true ↔
      (h.failed_services = [] ∨
       (h.continue_on_partial_failure = true ∧
        h.successful_services ≠ [])) := by
  cases hc : h.continue_on_partial_failure <;>
    simp [should_continue, hc, List.length_eq_zero, List.length_pos] <;>
    tauto

/-- Claim C9: after any sequence of `update_state` calls, saving the
state file and loading it into a fresh `StateManager` yields a
`get_all_states` map identical to the original instance's. -/
theorem save_load_roundtrip (m : StateManager)
    (results : List HealthCheckResult) :
    get_all_states (load_state (save_state (run_updates m results))) =
      get_all_states (run_updates m results) := by
  rfl

end HealthMonitor
